import Mathlib

/-!
Verification of the layer-wrapper module `layers.py` of the
text-gan-tensorflow repository.

The module is a thin decorator-based convenience layer over TensorFlow:
a `layer` decorator turning a plain graph-building function into a named,
template-memoized, chainable `Layer` object, plus a catalog of short layer
functions (dropout, word dropout, cross entropy, ...) and a process-wide
boolean phase flag gating dropout scaling.

We embed the module shallowly:

* Tensors are a static shape (`List Nat`) together with rational-valued
  data indexed by multi-indices (`List Nat → ℚ`); real-valued TensorFlow
  scalars are modelled as rationals.
* The TensorFlow graph state that the module reads or writes is a `Graph`
  record: the `_phase` flag's value, the collection of created (trainable)
  variables keyed by their full scope-qualified names, the list of summary
  tags added so far, and the random stream consumed by the uniform-random
  dropout masks.
* `tf.make_template` semantics (defer variable creation to the first
  invocation, reuse existing variables afterwards, inside a named variable
  scope) is modelled by `Template.apply`, which resolves each variable the
  wrapped function requests against the graph: an existing binding is
  reused, a missing one is created.  Scope-name uniquification against
  pre-existing scopes is a framework detail not modelled; the scope name is
  the requested name.
* Exceptions (`assert`, `raise NotImplementedError`) are modelled with
  `Except String`.
-/

namespace TextGan

/-- A tensor: a static shape plus rational data indexed by a multi-index,
as seen through `get_shape()` in the source. -/
structure Tensor where
  shape : List Nat
  data : List Nat → ℚ

/-- `_rank(x) = len(x.get_shape())` (src/layers.py lines 16-17). -/
def rank (x : Tensor) : Nat :=
  x.shape.length

/-- The keyword arguments the layer functions of the module actually
consult: `name`, `summary` (truthiness) and `keep_prob`. -/
structure Kwargs where
  name : Option String := none
  summary : Bool := false
  keep_prob : ℚ := 1

/-- The TensorFlow graph state the module interacts with: the value of the
process-wide `_phase` variable (line 10), the created trainable variables
(full name, value), the summary tags added so far, and the random stream
feeding `tf.random_uniform` (one rational in `[0,1)` per mask index). -/
structure Graph where
  phase : Bool
  vars : List (String × ℚ)
  summaries : List String
  rand : List Nat → ℚ

/-- First-match lookup of a variable by its full name. -/
def lookupVar (key : String) : List (String × ℚ) → Option ℚ
  | [] => none
  | (n, v) :: rest => if n = key then some v else lookupVar key rest

/-- A graph-building function wrapped by the `layer` decorator: its
`__name__`, the variables it requests via `tf.get_variable` (name and
initializer value), and its computation, which sees the input tensor, the
positional arguments, the keyword arguments, the resolved variable values,
and (read-only) the graph — the body reads the graph only through the
`_phase` flag and the random stream. -/
structure LayerFunc where
  name : String
  varSpecs : List (String × ℚ)
  compute : Tensor → List ℚ → Kwargs → List ℚ → Graph → Except String Tensor

/-- `tf.get_variable` semantics inside a template's scope: resolve each
requested variable against the graph's variable store, reusing an existing
binding and creating a missing one.  Returns the resolved values in request
order and the updated store. -/
def resolveVars (scope : String) : List (String × ℚ) → List (String × ℚ) →
    List ℚ × List (String × ℚ)
  | [], vars => ([], vars)
  | (n, init) :: rest, vars =>
    let full := scope ++ "/" ++ n
    match lookupVar full vars with
    | some v =>
      let r := resolveVars scope rest vars
      (v :: r.1, r.2)
    | none =>
      let r := resolveVars scope rest (vars ++ [(full, init)])
      (init :: r.1, r.2)

/-- A `tf.make_template` template (created with `create_scope_now_=True`):
the variable scope's name, the wrapped function, and the framework's
`_variables_created` flag, false until the first invocation. -/
structure Template where
  scopeName : String
  func : LayerFunc
  varsCreated : Bool

/-- Invoking a template: variables requested by the wrapped function are
created on first use and reused afterwards (`tf.make_template` semantics);
on success the `_variables_created` flag is set. -/
def Template.apply (t : Template) (x : Tensor) (args : List ℚ) (kwargs : Kwargs)
    (g : Graph) : Except String (Tensor × Template × Graph) :=
  match t.func.compute x args kwargs
      (resolveVars t.scopeName t.func.varSpecs g.vars).1 g with
  | .error e => .error e
  | .ok out => .ok (out, { t with varsCreated := true },
      { g with vars := (resolveVars t.scopeName t.func.varSpecs g.vars).2 })

/-- An instance of the `Layer` class produced by the `layer` decorator
(src/layers.py lines 36-45): the wrapped function, the construction-time
positional and keyword arguments, the name (the `name` keyword argument,
defaulting to the function's `__name__`), the memoized template created in
`__init__`, and the `_summary_added` flag. -/
structure LayerInst where
  func : LayerFunc
  args : List ℚ
  kwargs : Kwargs
  name : String
  template : Template
  summaryAdded : Bool

/-- `Layer.__init__` (src/layers.py lines 37-45): capture the function and
the arguments, pick the name, create the template now, initialize
`_summary_added` to false. -/
def mkLayer (f : LayerFunc) (args : List ℚ) (kwargs : Kwargs) : LayerInst :=
  let nm := kwargs.name.getD f.name
  { func := f
    args := args
    kwargs := kwargs
    name := nm
    template := { scopeName := nm, func := f, varsCreated := false }
    summaryAdded := false }

/-- The variables of the graph whose full name lies under `scope`
(`tf.get_collection(TRAINABLE_VARIABLES, scope=...)` prefix matching). -/
def scopeVariables (scope : String) (vars : List (String × ℚ)) :
    List (String × ℚ) :=
  vars.filter (fun p => scope.data.isPrefixOf p.1.data)

/-- `Layer.get_variables_in_scope` (src/layers.py lines 71-74): assert that
the template's variables have been created, then collect the trainable
variables under the instance's variable scope name. -/
def LayerInst.get_variables_in_scope (L : LayerInst) (g : Graph) :
    Except String (List (String × ℚ)) :=
  if L.template.varsCreated then
    .ok (scopeVariables L.template.scopeName g.vars)
  else
    .error "Variables not yet created or undefined."

/-- `Layer._add_summary` (src/layers.py lines 61-69): do nothing unless the
`summary` keyword argument is truthy and no summary was added yet;
otherwise add one scalar summary per variable in scope and set the flag. -/
def addSummaryStep (L : LayerInst) (g : Graph) :
    Except String (LayerInst × Graph) :=
  if L.kwargs.summary = false then
    .ok (L, g)
  else if L.summaryAdded = true then
    .ok (L, g)
  else
    match L.get_variables_in_scope g with
    | .error e => .error e
    | .ok vs =>
      .ok ({ L with summaryAdded := true },
        { g with summaries := g.summaries ++ vs.map (fun p => p.1) })

/-- `Layer.__call__` (src/layers.py lines 47-51): run the memoized template
on the input with the construction-time arguments, log (a pure side
effect, not modelled), run `_add_summary`, return the template's output. -/
def LayerInst.call (L : LayerInst) (x : Tensor) (g : Graph) :
    Except String (Tensor × LayerInst × Graph) :=
  match L.template.apply x L.args L.kwargs g with
  | .error e => .error e
  | .ok (out, t2, g2) =>
    match addSummaryStep { L with template := t2 } g2 with
    | .error e => .error e
    | .ok (L3, g3) => .ok (out, L3, g3)

/-- `Layer.__rrshift__` (src/layers.py lines 53-55): `x >> L` delegates to
`L.__call__(x)`. -/
def LayerInst.rrshift (L : LayerInst) (other : Tensor) (g : Graph) :
    Except String (Tensor × LayerInst × Graph) :=
  L.call other g

/-- The expression `x >> L1 >> L2`: Python evaluates `x >> L1` first (via
`L1.__rrshift__`), then pipes the resulting tensor into `L2.__rrshift__`. -/
def chainTwo (x : Tensor) (L1 L2 : LayerInst) (g : Graph) :
    Except String (Tensor × LayerInst × Graph) :=
  match L1.rrshift x g with
  | .error e => .error e
  | .ok (y, _, g2) => L2.rrshift y g2

/-- The expression `L2(L1(x))`: call `L1` on `x`, then call `L2` on the
result. -/
def nestedTwo (x : Tensor) (L1 L2 : LayerInst) (g : Graph) :
    Except String (Tensor × LayerInst × Graph) :=
  match L1.call x g with
  | .error e => .error e
  | .ok (y, _, g2) => L2.call y g2

/-- `_global_keep_prob` (src/layers.py lines 28-31): under the conditional
graph node `tf.cond(_phase, ...)`, the keep probability is itself in the
training phase and `keep_prob * 0.0 + 1.0` in the inference phase. -/
def global_keep_prob (phase : Bool) (keep_prob : ℚ) : ℚ :=
  if phase then keep_prob else keep_prob * 0 + 1

/-- `_apply_dropout_mask` (src/layers.py lines 20-25): the binary mask is
`floor(keep_prob + u)` with `u` uniform in `[0,1)` drawn from the graph's
random stream at the mask's index; with `normalize` the mask is multiplied
by `tf.reciprocal(keep_prob)`. -/
def apply_dropout_mask (keep_prob : ℚ) (normalize : Bool)
    (rand : List Nat → ℚ) (ix : List Nat) : ℚ :=
  let binary_mask : ℚ := ((⌊keep_prob + rand ix⌋ : ℤ) : ℚ)
  if normalize then keep_prob⁻¹ * binary_mask else binary_mask

/-- `tf.nn.dropout` semantics (framework): each element is divided by
`keep_prob` and multiplied by the binary mask `floor(keep_prob + u)`,
`u` uniform in `[0,1)`. -/
def tf_nn_dropout (x : Tensor) (keep_prob : ℚ) (rand : List Nat → ℚ) :
    Tensor :=
  { shape := x.shape
    data := fun ix => x.data ix / keep_prob * ((⌊keep_prob + rand ix⌋ : ℤ) : ℚ) }

/-- `dropout_layer` body (src/layers.py lines 180-184): gate the keep
probability through `_global_keep_prob`, then apply `tf.nn.dropout`. -/
def dropout_layer (tensor : Tensor) (keep_prob : ℚ) (g : Graph) : Tensor :=
  tf_nn_dropout tensor (global_keep_prob g.phase keep_prob) g.rand

/-- The keep probability handed to the `DropoutWrapper` in
`recurrent_layer` (src/layers.py lines 120-122): the cell is wrapped only
when the literal `keep_prob` argument is below one, and then with the
phase-gated `_global_keep_prob(keep_prob)`; `none` means no wrapping. -/
def recurrent_cell_keep_prob (phase : Bool) (keep_prob : ℚ) : Option ℚ :=
  if keep_prob < 1 then some (global_keep_prob phase keep_prob) else none

/-- `word_dropout_layer` body (src/layers.py lines 188-199): gate the keep
probability, assert the input has rank 3, build an un-normalized binary
mask over the first two dimensions, expand it along the last axis and
multiply (the mask value at `[i, j, k]` depends only on `[i, j]`). -/
def word_dropout_layer (tensor : Tensor) (keep_prob : ℚ) (g : Graph) :
    Except String Tensor :=
  let kp := global_keep_prob g.phase keep_prob
  if rank tensor = 3 then
    .ok { shape := tensor.shape
          data := fun ix =>
            tensor.data ix * apply_dropout_mask kp false g.rand (ix.take 2) }
  else
    .error "Use embedding lookup layer"

/-- The undecorated `word_dropout_layer` packaged as the function the
`layer` decorator wraps; it requests no variables and reads `keep_prob`
from the keyword arguments. -/
def word_dropout_func : LayerFunc :=
  { name := "word_dropout_layer"
    varSpecs := []
    compute := fun x _ kw _ g => word_dropout_layer x kw.keep_prob g }

/-- `conv1d_layer` (src/layers.py lines 251-253): the body immediately
raises `NotImplementedError`. -/
def conv1d_layer : LayerFunc :=
  { name := "conv1d_layer"
    varSpecs := []
    compute := fun _ _ _ _ _ => .error "NotImplementedError" }

/-- `residual_layer` (src/layers.py lines 256-258): the body immediately
raises `NotImplementedError`. -/
def residual_layer : LayerFunc :=
  { name := "residual_layer"
    varSpecs := []
    compute := fun _ _ _ _ _ => .error "NotImplementedError" }

/-- `highway_layer` (src/layers.py lines 261-263): the body immediately
raises `NotImplementedError`. -/
def highway_layer : LayerFunc :=
  { name := "highway_layer"
    varSpecs := []
    compute := fun _ _ _ _ _ => .error "NotImplementedError" }

/-- Symbolic computation-graph expressions, used to examine which graph
`cross_entropy_layer` builds.  `input` carries an identifier and a static
shape; the remaining constructors are the TensorFlow operations the layer
body uses. -/
inductive Expr where
  | input : Nat → List Nat → Expr
  | reshapeE : Expr → List Int → Expr
  | sparseSoftmaxCE : Expr → Expr → Expr
  | notEqual : Expr → Expr → Expr
  | zerosLike : Expr → Expr
  | castFloat : Expr → Expr
  | mul : Expr → Expr → Expr
deriving DecidableEq

/-- Static rank of a symbolic expression (`len(get_shape())`): a reshape
has the rank of its target shape, sparse softmax cross entropy drops the
class dimension of its logits, the elementwise operations preserve rank. -/
def Expr.rankOf : Expr → Nat
  | .input _ s => s.length
  | .reshapeE _ s => s.length
  | .sparseSoftmaxCE l _ => l.rankOf - 1
  | .notEqual a _ => a.rankOf
  | .zerosLike e => e.rankOf
  | .castFloat e => e.rankOf
  | .mul a _ => a.rankOf

/-- The target actually fed to the cross-entropy primitive
(src/layers.py lines 225-226): flattened to rank 1 when the logits tensor
has rank above 1. -/
def ceTarget (tensor target : Expr) : Expr :=
  if 1 < tensor.rankOf then Expr.reshapeE target [-1] else target

/-- The graph built by the `cross_entropy_layer` body (src/layers.py lines
223-231): the framework's sparse softmax cross-entropy node, multiplied by
a mask computed in this module as `cast(target != zeros_like(target))`. -/
def cross_entropy_layer (tensor target : Expr) : Expr :=
  let target2 := ceTarget tensor target
  Expr.mul (Expr.sparseSoftmaxCE tensor target2)
    (Expr.castFloat (Expr.notEqual target2 (Expr.zerosLike target2)))

/-- Modelled from the spec: the spec's description of `cross_entropy_layer`
("forwards entirely to the framework's sparse softmax cross-entropy
primitive", with masking delegated to the framework), stated as a graph,
for comparison with the graph the source builds. -/
def cross_entropy_layer_specForward (tensor target : Expr) : Expr :=
  Expr.sparseSoftmaxCE tensor (ceTarget tensor target)

/-! Concrete fixtures used to evaluate the development on closed inputs. -/

/-- A wrapped function requesting one variable, standing in for
`dense_layer`'s weight request. -/
def fFix : LayerFunc :=
  { name := "dense_layer"
    varSpecs := [("dense_W", 2)]
    compute := fun x _ _ _ _ => .ok x }

/-- Default keyword arguments: no `name`, no `summary`. -/
def kFix : Kwargs := {}

/-- Keyword arguments with an explicit `name` and a truthy `summary`. -/
def kSum : Kwargs := { name := some "d1", summary := true, keep_prob := 1 }

/-- A training-phase graph with empty stores. -/
def gFix : Graph :=
  { phase := true, vars := [], summaries := [], rand := fun _ => 0 }

/-- An inference-phase graph whose random stream is constantly 1/3. -/
def gInfer : Graph :=
  { phase := false, vars := [], summaries := [], rand := fun _ => 1/3 }

/-- A rank-1 tensor fixture. -/
def xFix : Tensor := { shape := [2], data := fun _ => 5 }

/-- A rank-3 tensor fixture. -/
def x3Fix : Tensor := { shape := [2, 3, 4], data := fun _ => 4 }

/-- A rank-2 tensor fixture. -/
def y2Fix : Tensor := { shape := [2, 3], data := fun _ => 4 }

/-- The state of `mkLayer fFix [] kFix` after its first invocation. -/
def L1Fix : LayerInst :=
  { func := fFix
    args := []
    kwargs := kFix
    name := "dense_layer"
    template := { scopeName := "dense_layer", func := fFix, varsCreated := true }
    summaryAdded := false }

/-- The graph after the first invocation of `mkLayer fFix [] kFix` on
`gFix`: the weight variable has been created. -/
def g1Fix : Graph :=
  { phase := true, vars := [("dense_layer/dense_W", 2)], summaries := []
    rand := fun _ => 0 }

/-- The state of `mkLayer fFix [] kSum` after its first invocation. -/
def LSum1 : LayerInst :=
  { func := fFix
    args := []
    kwargs := kSum
    name := "d1"
    template := { scopeName := "d1", func := fFix, varsCreated := true }
    summaryAdded := true }

/-- The graph after the first invocation of `mkLayer fFix [] kSum` on
`gFix`: the weight variable exists and its scalar summary was added. -/
def gSum1 : Graph :=
  { phase := true, vars := [("d1/dense_W", 2)], summaries := ["d1/dense_W"]
    rand := fun _ => 0 }

/-! Helper lemmas about the variable store and the call mechanism. -/

theorem lookupVar_append_of_some {key : String} {vars l : List (String × ℚ)}
    {v : ℚ} (h : lookupVar key vars = some v) :
    lookupVar key (vars ++ l) = some v := by
  induction vars with
  | nil => simp [lookupVar] at h
  | cons p rest ih =>
    obtain ⟨n, w⟩ := p
    simp only [lookupVar, List.cons_append] at h ⊢
    split at h
    · rw [if_pos (by assumption)]; exact h
    · rw [if_neg (by assumption)]; exact ih h

theorem lookupVar_append_of_none {key : String} {vars l : List (String × ℚ)}
    (h : lookupVar key vars = none) :
    lookupVar key (vars ++ l) = lookupVar key l := by
  induction vars with
  | nil => simp
  | cons p rest ih =>
    obtain ⟨n, w⟩ := p
    simp only [lookupVar, List.cons_append] at h ⊢
    split at h
    · exact absurd h (by simp)
    · rw [if_neg (by assumption)]; exact ih h

theorem resolveVars_lookup_mono (scope : String) (specs : List (String × ℚ)) :
    ∀ (vars : List (String × ℚ)) (key : String) (v : ℚ),
      lookupVar key vars = some v →
      lookupVar key (resolveVars scope specs vars).2 = some v := by
  induction specs with
  | nil => intro vars key v h; simpa [resolveVars] using h
  | cons q rest ih =>
    intro vars key v h
    obtain ⟨n, init⟩ := q
    simp only [resolveVars]
    cases hl : lookupVar (scope ++ "/" ++ n) vars with
    | some w => simpa using ih vars key v h
    | none =>
      simpa using
        ih (vars ++ [(scope ++ "/" ++ n, init)]) key v (lookupVar_append_of_some h)

theorem resolveVars_creates (scope : String) (specs : List (String × ℚ)) :
    ∀ (vars : List (String × ℚ)), ∀ p ∈ specs,
      ∃ v, lookupVar (scope ++ "/" ++ p.1) (resolveVars scope specs vars).2
        = some v := by
  induction specs with
  | nil => intro vars p hp; cases hp
  | cons q rest ih =>
    intro vars p hp
    obtain ⟨n, init⟩ := q
    simp only [resolveVars]
    cases hl : lookupVar (scope ++ "/" ++ n) vars with
    | some w =>
      rcases List.mem_cons.mp hp with hph | hpr
      · subst hph
        exact ⟨w, by simpa using resolveVars_lookup_mono scope rest vars _ w hl⟩
      · simpa using ih vars p hpr
    | none =>
      rcases List.mem_cons.mp hp with hph | hpr
      · subst hph
        refine ⟨init, ?_⟩
        have hbase : lookupVar (scope ++ "/" ++ n)
            (vars ++ [(scope ++ "/" ++ n, init)]) = some init := by
          rw [lookupVar_append_of_none hl]; simp [lookupVar]
        simpa using resolveVars_lookup_mono scope rest _ _ init hbase
      · simpa using ih (vars ++ [(scope ++ "/" ++ n, init)]) p hpr

theorem resolveVars_stable (scope : String) (specs : List (String × ℚ)) :
    ∀ (vars : List (String × ℚ)),
      (∀ p ∈ specs, ∃ v, lookupVar (scope ++ "/" ++ p.1) vars = some v) →
      (resolveVars scope specs vars).2 = vars := by
  induction specs with
  | nil => intro vars _; rfl
  | cons q rest ih =>
    intro vars hall
    obtain ⟨n, init⟩ := q
    obtain ⟨v, hv⟩ := hall (n, init) (List.mem_cons_self _ _)
    simp only [resolveVars, hv]
    exact ih vars (fun p hp => hall p (List.mem_cons_of_mem _ hp))

theorem template_apply_ok {t : Template} {x : Tensor} {a : List ℚ}
    {k : Kwargs} {g : Graph} {out : Tensor} {t' : Template} {g' : Graph}
    (h : t.apply x a k g = .ok (out, t', g')) :
    t' = { t with varsCreated := true } ∧
    g' = { g with vars := (resolveVars t.scopeName t.func.varSpecs g.vars).2 } := by
  unfold Template.apply at h
  split at h
  · exact absurd h (by simp)
  · simp only [Except.ok.injEq, Prod.mk.injEq] at h
    exact ⟨h.2.1.symm, h.2.2.symm⟩

theorem addSummaryStep_skip_off {L : LayerInst} {g : Graph}
    (h : L.kwargs.summary = false) : addSummaryStep L g = .ok (L, g) := by
  unfold addSummaryStep
  rw [if_pos h]

theorem addSummaryStep_skip_added {L : LayerInst} {g : Graph}
    (h : L.summaryAdded = true) :
    addSummaryStep L g = .ok (L, g) := by
  unfold addSummaryStep
  split
  · rfl
  · simp [h]

theorem addSummaryStep_fresh {L : LayerInst} {g : Graph}
    (hs : L.kwargs.summary = true) (ha : L.summaryAdded = false)
    (hc : L.template.varsCreated = true) :
    addSummaryStep L g = .ok ({ L with summaryAdded := true },
      { g with summaries := g.summaries ++
          (scopeVariables L.template.scopeName g.vars).map (fun p => p.1) }) := by
  unfold addSummaryStep
  rw [if_neg (by simp [hs]), if_neg (by simp [ha])]
  unfold LayerInst.get_variables_in_scope
  rw [if_pos hc]

theorem addSummaryStep_ok {L : LayerInst} {g : Graph} {L' : LayerInst}
    {g' : Graph} (h : addSummaryStep L g = .ok (L', g')) :
    L'.func = L.func ∧ L'.args = L.args ∧ L'.kwargs = L.kwargs ∧
    L'.name = L.name ∧ L'.template = L.template ∧
    g'.vars = g.vars ∧ g'.phase = g.phase ∧ g'.rand = g.rand := by
  unfold addSummaryStep at h
  split at h
  · obtain ⟨h1, h2⟩ : L = L' ∧ g = g' := by simpa using h
    subst h1; subst h2
    exact ⟨rfl, rfl, rfl, rfl, rfl, rfl, rfl, rfl⟩
  · split at h
    · obtain ⟨h1, h2⟩ : L = L' ∧ g = g' := by simpa using h
      subst h1; subst h2
      exact ⟨rfl, rfl, rfl, rfl, rfl, rfl, rfl, rfl⟩
    · split at h
      · exact absurd h (by simp)
      · rename_i vs heq
        obtain ⟨h1, h2⟩ :
            ({ L with summaryAdded := true } : LayerInst) = L' ∧
            ({ g with summaries := g.summaries ++
                vs.map (fun p => p.1) } : Graph) = g' := by
          simpa using h
        subst h1; subst h2
        exact ⟨rfl, rfl, rfl, rfl, rfl, rfl, rfl, rfl⟩

theorem call_ok_spec {L : LayerInst} {x : Tensor} {g : Graph} {out : Tensor}
    {L' : LayerInst} {g' : Graph}
    (h : L.call x g = .ok (out, L', g')) :
    L'.func = L.func ∧ L'.args = L.args ∧ L'.kwargs = L.kwargs ∧
    L'.name = L.name ∧
    L'.template.scopeName = L.template.scopeName ∧
    L'.template.func = L.template.func ∧
    L'.template.varsCreated = true ∧
    g'.vars = (resolveVars L.template.scopeName L.template.func.varSpecs g.vars).2 ∧
    g'.phase = g.phase ∧ g'.rand = g.rand := by
  unfold LayerInst.call at h
  split at h
  · exact absurd h (by simp)
  · rename_i out0 t2 g2 heq
    split at h
    · exact absurd h (by simp)
    · rename_i L3 g3 heq2
      simp only [Except.ok.injEq, Prod.mk.injEq] at h
      obtain ⟨_, hL, hg⟩ := h
      subst hL; subst hg
      obtain ⟨ht2, hg2⟩ := template_apply_ok heq
      obtain ⟨f1, f2, f3, f4, f5, v1, v2, v3⟩ := addSummaryStep_ok heq2
      subst ht2; subst hg2
      refine ⟨f1, f2, f3, f4, ?_, ?_, ?_, ?_, v2, v3⟩
      · rw [f5]
      · rw [f5]
      · rw [f5]
      · rw [v1]

theorem call_ok_cases {L : LayerInst} {x : Tensor} {g : Graph} {out : Tensor}
    {L' : LayerInst} {g' : Graph} (h : L.call x g = .ok (out, L', g')) :
    ∃ t2 g2, L.template.apply x L.args L.kwargs g = .ok (out, t2, g2) ∧
      addSummaryStep { L with template := t2 } g2 = .ok (L', g') := by
  unfold LayerInst.call at h
  split at h
  · exact absurd h (by simp)
  · rename_i o t2 g2 heq
    split at h
    · exact absurd h (by simp)
    · rename_i L3 g3 heq2
      obtain ⟨h1, h2, h3⟩ : o = out ∧ L3 = L' ∧ g3 = g' := by simpa using h
      subst h1; subst h2; subst h3
      exact ⟨t2, g2, heq, heq2⟩

theorem addSummaryStep_no_fail {L : LayerInst} {g : Graph}
    (hc : L.template.varsCreated = true) (e : String) :
    addSummaryStep L g ≠ .error e := by
  unfold addSummaryStep
  split
  · simp
  · split
    · simp
    · split
      · rename_i heq
        unfold LayerInst.get_variables_in_scope at heq
        rw [if_pos hc] at heq
        exact absurd heq (by simp)
      · simp

theorem call_out_eq_template (L : LayerInst) (x : Tensor) (g : Graph) :
    (L.call x g).map (fun r => r.1) =
      (L.template.apply x L.args L.kwargs g).map (fun r => r.1) := by
  unfold LayerInst.call
  cases ha : L.template.apply x L.args L.kwargs g with
  | error e => rfl
  | ok r =>
    obtain ⟨out, t2, g2⟩ := r
    obtain ⟨ht2, hg2⟩ := template_apply_ok ha
    cases hb : addSummaryStep { L with template := t2 } g2 with
    | error e =>
      have hcr : ({ L with template := t2 } : LayerInst).template.varsCreated
          = true := by
        rw [ht2]
      exact absurd hb (addSummaryStep_no_fail hcr e)
    | ok r2 =>
      obtain ⟨L3, g3⟩ := r2
      simp only [hb]
      rfl

/-! The claims. -/

/-- C2: the `>>` operator is exactly chained application: `x >> L` is
`L.__call__(x)`, and `x >> L1 >> L2` produces the same result (output,
layer states and graph state) as `L2(L1(x))`. -/
theorem rrshift_is_call (L L1 L2 : LayerInst) (x : Tensor) (g : Graph) :
    L.rrshift x g = L.call x g ∧
    chainTwo x L1 L2 g = nestedTwo x L1 L2 g :=
  ⟨rfl, rfl⟩

/-- C9: `conv1d_layer`, `residual_layer` and `highway_layer` construct
fine (the decorator builds the instance without running the body), but
every invocation, on any input, any arguments and any graph, raises
`NotImplementedError`. -/
theorem unimplemented_layers_raise (a : List ℚ) (k : Kwargs) (x : Tensor)
    (g : Graph) :
    (mkLayer conv1d_layer a k).template.varsCreated = false ∧
    (mkLayer residual_layer a k).template.varsCreated = false ∧
    (mkLayer highway_layer a k).template.varsCreated = false ∧
    (mkLayer conv1d_layer a k).call x g = .error "NotImplementedError" ∧
    (mkLayer residual_layer a k).call x g = .error "NotImplementedError" ∧
    (mkLayer highway_layer a k).call x g = .error "NotImplementedError" :=
  ⟨rfl, rfl, rfl, rfl, rfl, rfl⟩

/-- C5 counterexample: the graph `cross_entropy_layer` builds is not the
framework's sparse softmax cross-entropy node (the claim that the layer
forwards entirely to the primitive, with masking delegated to the
framework, fails on concrete rank-2 logits and rank-1 targets). -/
theorem cross_entropy_not_pure_forward :
    cross_entropy_layer (Expr.input 0 [4, 5]) (Expr.input 1 [4]) ≠
      cross_entropy_layer_specForward (Expr.input 0 [4, 5]) (Expr.input 1 [4]) := by
  decide

/-- C5 (amended): `cross_entropy_layer` calls the framework's sparse
softmax cross-entropy primitive and then applies masking implemented in
this repository: it multiplies the primitive's output by
`cast(target != zeros_like(target))`, so the built graph is never just the
primitive node. -/
theorem cross_entropy_masks_in_module (tensor target : Expr) :
    cross_entropy_layer tensor target =
      Expr.mul (Expr.sparseSoftmaxCE tensor (ceTarget tensor target))
        (Expr.castFloat (Expr.notEqual (ceTarget tensor target)
          (Expr.zerosLike (ceTarget tensor target)))) ∧
    cross_entropy_layer tensor target ≠
      cross_entropy_layer_specForward tensor target :=
  ⟨rfl, fun h => Expr.noConfusion h⟩

/-- C1: `_global_keep_prob` yields the keep probability in the training
phase and 1 in the inference phase; consequently `dropout_layer` leaves
every element of its input unchanged when the phase flag is false (the
uniform draw lies in `[0,1)`), and the `DropoutWrapper` inside
`recurrent_layer`, engaged only for `keep_prob < 1`, then receives keep
probability 1. -/
theorem phase_gates_dropout (kp : ℚ) (x : Tensor) (g : Graph) (ix : List Nat)
    (hph : g.phase = false) (h0 : 0 ≤ g.rand ix) (h1 : g.rand ix < 1) :
    global_keep_prob true kp = kp ∧
    global_keep_prob false kp = 1 ∧
    (dropout_layer x kp g).shape = x.shape ∧
    (dropout_layer x kp g).data ix = x.data ix ∧
    (kp < 1 → recurrent_cell_keep_prob g.phase kp = some 1) := by
  have hgk : global_keep_prob g.phase kp = 1 := by
    rw [hph]; simp [global_keep_prob]
  refine ⟨rfl, by simp [global_keep_prob], rfl, ?_, ?_⟩
  · have hf : (⌊global_keep_prob g.phase kp + g.rand ix⌋ : ℤ) = 1 := by
      rw [hgk]
      refine Int.floor_eq_iff.mpr ⟨?_, ?_⟩
      · push_cast; linarith
      · push_cast; linarith
    show x.data ix / global_keep_prob g.phase kp *
        ((⌊global_keep_prob g.phase kp + g.rand ix⌋ : ℤ) : ℚ) = x.data ix
    rw [hf, hgk]
    simp
  · intro hkp
    rw [hph] at hgk ⊢
    simp [recurrent_cell_keep_prob, hkp, hgk]

/-- Witness for C1 at `keep_prob = 1/2` on the inference-phase fixture. -/
theorem phase_gates_dropout_witness :
    global_keep_prob true (1/2) = 1/2 ∧
    global_keep_prob false (1/2) = 1 ∧
    (dropout_layer xFix (1/2) gInfer).shape = xFix.shape ∧
    (dropout_layer xFix (1/2) gInfer).data [0] = xFix.data [0] ∧
    ((1 : ℚ)/2 < 1 → recurrent_cell_keep_prob gInfer.phase (1/2) = some 1) :=
  phase_gates_dropout (1/2) xFix gInfer [0] rfl
    (by norm_num [gInfer]) (by norm_num [gInfer])

/-- C8: `word_dropout_layer` rejects any input whose rank is not 3 with
the assertion message `Use embedding lookup layer` (both as a bare body
and when invoked through the decorator), and on a rank-3 input returns
the input times an un-normalized binary mask that depends only on the
first two index coordinates (broadcast over the last dimension). -/
theorem word_dropout_requires_rank3 (x y : Tensor) (kp : ℚ) (g : Graph)
    (a : List ℚ) (k : Kwargs) (ix : List Nat)
    (h3 : rank x = 3) (hn3 : rank y ≠ 3) :
    word_dropout_layer y kp g = .error "Use embedding lookup layer" ∧
    (mkLayer word_dropout_func a k).call y g =
      .error "Use embedding lookup layer" ∧
    word_dropout_layer x kp g = .ok
      { shape := x.shape
        data := fun j => x.data j *
          apply_dropout_mask (global_keep_prob g.phase kp) false g.rand (j.take 2) } ∧
    apply_dropout_mask (global_keep_prob g.phase kp) false g.rand (ix.take 2) =
      ((⌊global_keep_prob g.phase kp + g.rand (ix.take 2)⌋ : ℤ) : ℚ) := by
  have herr : ∀ q : ℚ, word_dropout_layer y q g =
      .error "Use embedding lookup layer" := by
    intro q
    simp [word_dropout_layer, hn3]
  refine ⟨herr kp, ?_, ?_, rfl⟩
  · unfold LayerInst.call Template.apply
    simp [mkLayer, word_dropout_func, herr k.keep_prob]
  · simp [word_dropout_layer, h3]

/-- Witness for C8 on a rank-3 and a rank-2 fixture. -/
theorem word_dropout_requires_rank3_witness :
    word_dropout_layer y2Fix (9/10) gInfer =
      .error "Use embedding lookup layer" ∧
    (mkLayer word_dropout_func [] kFix).call y2Fix gInfer =
      .error "Use embedding lookup layer" ∧
    word_dropout_layer x3Fix (9/10) gInfer = .ok
      { shape := x3Fix.shape
        data := fun j => x3Fix.data j *
          apply_dropout_mask (global_keep_prob gInfer.phase (9/10)) false
            gInfer.rand (j.take 2) } ∧
    apply_dropout_mask (global_keep_prob gInfer.phase (9/10)) false
        gInfer.rand ([1, 2, 3].take 2) =
      ((⌊global_keep_prob gInfer.phase (9/10) + gInfer.rand ([1, 2, 3].take 2)⌋
        : ℤ) : ℚ) :=
  word_dropout_requires_rank3 x3Fix y2Fix (9/10) gInfer [] kFix [1, 2, 3]
    rfl (by decide)

/-- C3: every `Layer` instance memoizes one template created at
construction, scoped by the `name` keyword argument (defaulting to the
wrapped function's name); variables are not created at construction, the
first invocation creates every variable the function requests under that
scope, and a second invocation goes through the same scoped template and
creates no new variables. -/
theorem template_memoized (f : LayerFunc) (a : List ℚ) (k : Kwargs)
    (x y o1 o2 : Tensor) (g g1 g2 : Graph) (L1 L2 : LayerInst)
    (h1 : (mkLayer f a k).call x g = .ok (o1, L1, g1))
    (h2 : L1.call y g1 = .ok (o2, L2, g2)) :
    (mkLayer f a k).template.scopeName = k.name.getD f.name ∧
    (mkLayer f a k).template.varsCreated = false ∧
    L1.template.scopeName = (mkLayer f a k).template.scopeName ∧
    L1.template.varsCreated = true ∧
    (∀ p ∈ f.varSpecs, ∃ v,
      lookupVar ((mkLayer f a k).template.scopeName ++ "/" ++ p.1) g1.vars
        = some v) ∧
    g2.vars = g1.vars ∧
    L2.template.scopeName = L1.template.scopeName := by
  obtain ⟨_, _, _, _, s1, sf1, sc1, v1, _, _⟩ := call_ok_spec h1
  obtain ⟨_, _, _, _, s2, sf2, sc2, v2, _, _⟩ := call_ok_spec h2
  have hcreate : ∀ p ∈ f.varSpecs, ∃ v,
      lookupVar ((mkLayer f a k).template.scopeName ++ "/" ++ p.1) g1.vars
        = some v := by
    intro p hp
    rw [v1]
    exact resolveVars_creates _ _ g.vars p hp
  refine ⟨rfl, rfl, s1, sc1, hcreate, ?_, s2⟩
  rw [v2, s1, sf1]
  exact resolveVars_stable _ _ g1.vars hcreate

/-- Witness for C3 on the one-variable fixture: two invocations, the
second one creating nothing new. -/
theorem template_memoized_witness :
    (mkLayer fFix [] kFix).template.varsCreated = false ∧
    L1Fix.template.varsCreated = true ∧
    (∃ v, lookupVar ("dense_layer" ++ "/" ++ "dense_W") g1Fix.vars = some v) ∧
    g1Fix.vars = g1Fix.vars := by
  obtain ⟨c1, c2, c3, c4, c5, c6, c7⟩ :=
    template_memoized fFix [] kFix xFix xFix xFix xFix gFix g1Fix g1Fix
      L1Fix L1Fix rfl rfl
  refine ⟨c2, c4, ?_, c6⟩
  have hv := c5 ("dense_W", 2) (by simp [fFix])
  simpa [mkLayer, kFix, fFix] using hv

/-- C4: `_add_summary` adds the scalar summaries for the variables in the
instance's scope exactly on the first invocation of an instance whose
`summary` keyword argument is truthy, and never touches the summaries on
later invocations or when `summary` is not truthy; construction starts
with the flag unset. -/
theorem summary_on_first_call :
    (∀ (L : LayerInst) (x : Tensor) (g : Graph) (o : Tensor)
        (L' : LayerInst) (g' : Graph),
      L.kwargs.summary = false → L.call x g = .ok (o, L', g') →
      g'.summaries = g.summaries ∧ L'.summaryAdded = L.summaryAdded) ∧
    (∀ (L : LayerInst) (x : Tensor) (g : Graph) (o : Tensor)
        (L' : LayerInst) (g' : Graph),
      L.summaryAdded = true → L.call x g = .ok (o, L', g') →
      g'.summaries = g.summaries ∧ L'.summaryAdded = true) ∧
    (∀ (L : LayerInst) (x : Tensor) (g : Graph) (o : Tensor)
        (L' : LayerInst) (g' : Graph),
      L.kwargs.summary = true → L.summaryAdded = false →
      L.call x g = .ok (o, L', g') →
      g'.summaries = g.summaries ++
        (scopeVariables L.template.scopeName g'.vars).map (fun p => p.1) ∧
      L'.summaryAdded = true) ∧
    (∀ (f : LayerFunc) (a : List ℚ) (k : Kwargs),
      (mkLayer f a k).summaryAdded = false) := by
  refine ⟨?_, ?_, ?_, fun f a k => rfl⟩
  · intro L x g o L' g' hsum hc
    obtain ⟨t2, g2, ha, hs⟩ := call_ok_cases hc
    obtain ⟨ht2, hg2⟩ := template_apply_ok ha
    rw [addSummaryStep_skip_off (by exact hsum)] at hs
    obtain ⟨hL, hg⟩ : ({ L with template := t2 } : LayerInst) = L' ∧ g2 = g' := by
      simpa using hs
    subst hL; subst hg; subst hg2
    exact ⟨rfl, rfl⟩
  · intro L x g o L' g' hadd hc
    obtain ⟨t2, g2, ha, hs⟩ := call_ok_cases hc
    obtain ⟨ht2, hg2⟩ := template_apply_ok ha
    rw [addSummaryStep_skip_added (by exact hadd)] at hs
    obtain ⟨hL, hg⟩ : ({ L with template := t2 } : LayerInst) = L' ∧ g2 = g' := by
      simpa using hs
    subst hL; subst hg; subst hg2
    exact ⟨rfl, hadd⟩
  · intro L x g o L' g' hsum hadd hc
    obtain ⟨t2, g2, ha, hs⟩ := call_ok_cases hc
    obtain ⟨ht2, hg2⟩ := template_apply_ok ha
    subst ht2
    rw [addSummaryStep_fresh (by exact hsum) (by exact hadd) rfl] at hs
    rw [Except.ok.injEq, Prod.mk.injEq] at hs
    obtain ⟨hL, hg⟩ := hs
    subst hL; subst hg; subst hg2
    exact ⟨rfl, rfl⟩

/-- Witness for C4: the summary-enabled fixture layer adds exactly its
weight's summary tag on its first invocation, and a fresh instance starts
with the flag unset. -/
theorem summary_on_first_call_witness :
    gSum1.summaries = gFix.summaries ++
      (scopeVariables (mkLayer fFix [] kSum).template.scopeName gSum1.vars).map
        (fun p => p.1) ∧
    LSum1.summaryAdded = true ∧
    (mkLayer fFix [] kSum).summaryAdded = false := by
  obtain ⟨h1, h2⟩ := summary_on_first_call.2.2.1 (mkLayer fFix [] kSum) xFix gFix
    xFix LSum1 gSum1 rfl rfl rfl
  exact ⟨h1, h2, summary_on_first_call.2.2.2 fFix [] kSum⟩

/-- C6 counterexample: invoking a `Layer` instance is not state-free — on
the summary-enabled fixture, the instance's `_summary_added` attribute is
false before the call and true after it. -/
theorem layer_call_not_stateless :
    ((mkLayer fFix [] kSum).call xFix gFix).map (fun r => r.2.1.summaryAdded)
      = .ok true ∧
    (mkLayer fFix [] kSum).summaryAdded = false :=
  ⟨rfl, rfl⟩

/-- C6 (amended): invoking a `Layer` instance mutates no module-level
binding (the phase flag and the random stream are untouched) and none of
the instance's attributes except the memoized template's
variables-created flag and the `_summary_added` flag: the wrapped
function, the captured arguments, the name and the template's scope are
all unchanged. -/
theorem layer_call_frame (L : LayerInst) (x : Tensor) (g : Graph)
    (o : Tensor) (L' : LayerInst) (g' : Graph)
    (h : L.call x g = .ok (o, L', g')) :
    L'.func = L.func ∧ L'.args = L.args ∧ L'.kwargs = L.kwargs ∧
    L'.name = L.name ∧ L'.template.scopeName = L.template.scopeName ∧
    L'.template.func = L.template.func ∧
    g'.phase = g.phase ∧ g'.rand = g.rand := by
  obtain ⟨f1, f2, f3, f4, f5, f6, _, _, p1, p2⟩ := call_ok_spec h
  exact ⟨f1, f2, f3, f4, f5, f6, p1, p2⟩

/-- Witness for C6 (amended) on the no-summary fixture call. -/
theorem layer_call_frame_witness :
    L1Fix.func = (mkLayer fFix [] kFix).func ∧
    L1Fix.args = (mkLayer fFix [] kFix).args ∧
    L1Fix.kwargs = (mkLayer fFix [] kFix).kwargs ∧
    L1Fix.name = (mkLayer fFix [] kFix).name ∧
    L1Fix.template.scopeName = (mkLayer fFix [] kFix).template.scopeName ∧
    L1Fix.template.func = (mkLayer fFix [] kFix).template.func ∧
    g1Fix.phase = gFix.phase ∧ g1Fix.rand = gFix.rand :=
  layer_call_frame (mkLayer fFix [] kFix) xFix gFix xFix L1Fix g1Fix rfl

/-- C7: a `Layer` instance is a named, memoized wrapper: its name is the
`name` keyword argument when given and the function's `__name__`
otherwise, the construction-time arguments are captured, and invoking the
instance returns exactly what the memoized template returns on
`(x, *args, **kwargs)` (including the failure cases). -/
theorem layer_wrapper_contract (f : LayerFunc) (a : List ℚ) (k : Kwargs)
    (x : Tensor) (g : Graph) :
    (mkLayer f a k).name = k.name.getD f.name ∧
    (mkLayer f a k).args = a ∧
    (mkLayer f a k).kwargs = k ∧
    ((mkLayer f a k).call x g).map (fun r => r.1) =
      ((mkLayer f a k).template.apply x a k g).map (fun r => r.1) :=
  ⟨rfl, rfl, rfl, call_out_eq_template (mkLayer f a k) x g⟩

/-- C10: `get_variables_in_scope` asserts that the template's variables
exist: on a freshly constructed instance it fails with the assertion
message, and after a successful invocation it returns the trainable
variables lying under the instance's variable scope name. -/
theorem get_variables_first_call (f : LayerFunc) (a : List ℚ) (k : Kwargs)
    (h0 : Graph) (L : LayerInst) (x o : Tensor) (g g' : Graph)
    (L' : LayerInst)
    (hc : L.call x g = .ok (o, L', g')) :
    (mkLayer f a k).get_variables_in_scope h0 =
      .error "Variables not yet created or undefined." ∧
    L'.get_variables_in_scope g' =
      .ok (scopeVariables L'.template.scopeName g'.vars) := by
  constructor
  · unfold LayerInst.get_variables_in_scope
    rw [if_neg (by simp [mkLayer])]
  · obtain ⟨_, _, _, _, _, _, hcr, _, _, _⟩ := call_ok_spec hc
    unfold LayerInst.get_variables_in_scope
    rw [if_pos hcr]

/-- Witness for C10 on the one-variable fixture. -/
theorem get_variables_first_call_witness :
    (mkLayer fFix [] kFix).get_variables_in_scope gFix =
      .error "Variables not yet created or undefined." ∧
    L1Fix.get_variables_in_scope g1Fix =
      .ok (scopeVariables L1Fix.template.scopeName g1Fix.vars) :=
  get_variables_first_call fFix [] kFix gFix (mkLayer fFix [] kFix) xFix xFix
    gFix g1Fix L1Fix rfl

end TextGan
